import Mathlib

/-!
Verification development for a single-file Streamlit SQL explorer
(`src/app.py`).  The program establishes one cached database connection,
accepts a SQL string, executes it through a pyodbc-style driver, renders the
resulting rows as a table and optionally exports them as CSV.

The embedding below mirrors the source:
* scalar cell values are modelled by their string rendering;
* the driver (`pyodbc` connection/cursor) is a function from a query string
  to an outcome: a rowset (with an optional column description), a
  driver-reported error (`pyodbc.Error`), or any other exception;
* Python exceptions are modelled with `Except PyExc`; the `try/except`
  blocks of the source become matches on that type;
* `st.cache_resource` on `get_connection` becomes an explicit memo cell;
* `st.cache_data(ttl=600)` on `run_query` becomes an explicit query-keyed
  cache with a 600-second freshness window;
* the `st.button("Execute Query")` block becomes `handleExecuteQuery`,
  returning the updated state plus the UI output (messages, optional table,
  optional CSV download payload).
-/

/-- A user-visible message emitted through the UI
(`st.error` / `st.warning` / `st.info` / `st.success`). -/
inductive Msg where
  | error (text : String)
  | warning (text : String)
  | info (text : String)
  | success (text : String)
deriving DecidableEq, Repr

/-- The tabular result structure (`pandas.DataFrame` as used by the source):
an ordered sequence of named columns and an ordered sequence of rows. -/
structure DataFrame where
  cols : List String
  rows : List (List String)
deriving DecidableEq, Repr

/-- `pd.DataFrame()`: the empty frame returned on errors and empty results. -/
def DataFrame.emptyDF : DataFrame := ⟨[], []⟩

/-- `df.empty` of pandas: true when either axis has length zero.  The source
uses `if not df.empty:` to decide whether to render the table. -/
def DataFrame.isEmpty (df : DataFrame) : Bool :=
  df.rows.isEmpty || df.cols.isEmpty

/-- Outcome of one driver interaction
(`conn.cursor(); cursor.execute(q); cursor.description; cursor.fetchall()`):
either a rowset together with the optional column description, or a raised
`pyodbc.Error`, or any other raised exception. -/
inductive ExecResult where
  | rows (description : Option (List String)) (fetched : List (List String))
  | pyodbcError (msg : String)
  | otherExc (msg : String)
deriving DecidableEq, Repr

/-- A live database connection: a deterministic driver answering queries. -/
structure Conn where
  exec : String → ExecResult

/-- A Python exception relevant to this program, as caught by the source's
`except pyodbc.Error` / `except Exception` clauses. -/
inductive PyExc where
  | pyodbcError (msg : String)
  | otherExc (msg : String)
deriving DecidableEq, Repr

/-- `init_connection` of the source.  The argument is the outcome of
`pyodbc.connect(...)` with the configured credentials: a connection, or a
raised exception with its message.  On failure the exception is caught, an
error message is shown and `None` is returned. -/
def init_connection (attempt : Except String Conn) : List Msg × Option Conn :=
  match attempt with
  | .ok c => ([], some c)
  | .error e => ([Msg.error ("Error connecting to database: " ++ e)], none)

/-- State of the `st.cache_resource` memo on `get_connection`: the cached
first result (if any) and how many times `init_connection` has run. -/
structure ResourceState where
  cache : Option (Option Conn)
  initCalls : Nat

/-- `get_connection` of the source: `init_connection` memoized by
`st.cache_resource`.  The first call runs `init_connection` and stores its
result (even `None`); later calls return the stored value unchanged. -/
def get_connection (attempt : Except String Conn) (st : ResourceState) :
    Option Conn × ResourceState :=
  match st.cache with
  | some c => (c, st)
  | none =>
    let c := (init_connection attempt).2
    (c, ⟨some c, st.initCalls + 1⟩)

/-- A sequence of `get_connection` calls, each with the outcome
`pyodbc.connect` would produce at that moment (so the environment may change
between calls). -/
def get_connection_calls (st : ResourceState) :
    List (Except String Conn) → List (Option Conn) × ResourceState
  | [] => ([], st)
  | a :: rest =>
    let p := get_connection a st
    let q := get_connection_calls p.2 rest
    (p.1 :: q.1, q.2)

/-- `pd.DataFrame(data, columns=columns)` as called by the source: rows from
`cursor.fetchall()` are uniform, and pandas raises when the column list does
not match the data width; that raise is an ordinary (non-pyodbc) exception. -/
def mkDataFrame (data : List (List String)) (columns : List String) :
    Except PyExc DataFrame :=
  if data.all (fun r => r.length == columns.length) then
    .ok ⟨columns, data⟩
  else
    .error (.otherExc "columns passed do not match data")

/-- The `try:` block of `run_query`: check the connection, run the query on
the driver, read `cursor.description` (empty column list when it is `None`),
fetch the rows, and build the frame when both rows and columns are
non-empty.  Exceptions propagate. -/
def runQueryTry (conn : Option Conn) (query : String) :
    Except PyExc (List Msg × DataFrame) :=
  match conn with
  | none => .ok ([Msg.error "Database connection is not established"], DataFrame.emptyDF)
  | some c =>
    match c.exec query with
    | .rows description fetched =>
      let columns := match description with
        | some cs => cs
        | none => []
      if !fetched.isEmpty && !columns.isEmpty then
        (mkDataFrame fetched columns).map (fun df => ([], df))
      else
        .ok ([], DataFrame.emptyDF)
    | .pyodbcError m => .error (.pyodbcError m)
    | .otherExc m => .error (.otherExc m)

/-- `run_query` of the source (the undecorated function): the `try:` block
wrapped in `except pyodbc.Error as e` and `except Exception as e` handlers,
each showing a message and returning the empty frame.  The result type keeps
the exception channel so that "no exception escapes" is a theorem rather
than a typing accident. -/
def run_query (conn : Option Conn) (query : String) :
    Except PyExc (List Msg × DataFrame) :=
  match runQueryTry conn query with
  | .ok r => .ok r
  | .error (.pyodbcError m) =>
    .ok ([Msg.error ("Database error: " ++ m)], DataFrame.emptyDF)
  | .error (.otherExc m) =>
    .ok ([Msg.error ("Error executing query: " ++ m)], DataFrame.emptyDF)

/-- The value `run_query` returns to its caller (it never throws, as proved
below; the fallback arm is unreachable). -/
def runQueryVal (conn : Option Conn) (query : String) : List Msg × DataFrame :=
  match run_query conn query with
  | .ok r => r
  | .error _ => ([], DataFrame.emptyDF)

/-- One entry of the `st.cache_data` memo on `run_query`: keyed by the query
string, stamped with the time the value was computed. -/
structure CacheEntry where
  query : String
  storedAt : Nat
  result : List Msg × DataFrame

/-- `ttl=600`: a cached value stays valid for 600 seconds. -/
def cacheTTL : Nat := 600

/-- Look up a still-fresh cached result for `q` at time `now` (newest
entries are consed at the front, so `find?` sees the most recent first). -/
def lookupCache (cache : List CacheEntry) (q : String) (now : Nat) :
    Option (List Msg × DataFrame) :=
  (cache.find? (fun e => e.query == q && decide (now - e.storedAt < cacheTTL))).map
    (fun e => e.result)

/-- Whole-app state: the session connection (fixed at script start), the
`st.cache_data` memo, and the log of strings actually handed to the
driver's execute call (its length is the driver call count). -/
structure AppState where
  conn : Option Conn
  cache : List CacheEntry
  execLog : List String

/-- The decorated `run_query`, i.e. `st.cache_data(ttl=600)` applied to
`run_query`: on a fresh-cache hit the stored result is returned and the
driver is not consulted; on a miss the body runs (touching the driver
exactly when a connection exists) and the result is stored. -/
def cachedRunQuery (st : AppState) (q : String) (now : Nat) :
    AppState × (List Msg × DataFrame) :=
  match lookupCache st.cache q now with
  | some r => (st, r)
  | none =>
    let r := runQueryVal st.conn q
    let log := match st.conn with
      | none => st.execLog
      | some _ => st.execLog ++ [q]
    ({ conn := st.conn, cache := ⟨q, now, r⟩ :: st.cache, execLog := log }, r)

/-- Python `str.isspace` on the ASCII whitespace characters removed by
`str.strip()`. -/
def pyIsSpace (c : Char) : Bool :=
  c == ' ' || c == '\t' || c == '\n' || c == '\r' || c == '\x0b' || c == '\x0c'

/-- Python `query.strip()`: drop leading and trailing whitespace. -/
def pyStrip (s : String) : String :=
  String.mk (((s.toList.dropWhile pyIsSpace).reverse.dropWhile pyIsSpace).reverse)

/-- Which fields `df.to_csv` must quote (csv `QUOTE_MINIMAL`): those
containing the delimiter, the quote character, or a line break. -/
def needsQuote (s : String) : Bool :=
  s.toList.any (fun c => c == ',' || c == '"' || c == '\n' || c == '\r')

/-- Double every quote character (csv quote escaping). -/
def escapeQuotes : List Char → List Char
  | [] => []
  | c :: cs =>
    if c = '"' then '"' :: '"' :: escapeQuotes cs else c :: escapeQuotes cs

/-- One CSV field as `df.to_csv` writes it. -/
def fieldChars (s : String) : List Char :=
  if needsQuote s then '"' :: (escapeQuotes s.toList ++ ['"']) else s.toList

/-- One CSV record: fields joined with commas. -/
def recordChars : List String → List Char
  | [] => []
  | [f] => fieldChars f
  | f :: fs => fieldChars f ++ ',' :: recordChars fs

/-- Records each terminated by a newline. -/
def csvChars : List (List String) → List Char
  | [] => []
  | r :: rs => recordChars r ++ '\n' :: csvChars rs

/-- `df.to_csv(index=False)`: the header record followed by the data
records, comma-separated, minimally quoted, newline-terminated. -/
def to_csv (df : DataFrame) : String :=
  String.mk (csvChars (df.cols :: df.rows))

/-- Parser mode for the CSV decoder: at a record boundary, inside an
unquoted field, inside a quoted field, or just after a closing quote. -/
inductive CsvMode where
  | rstart
  | field
  | quoted
  | closed

/-- A standard single-pass CSV decoder (RFC-4180 style, strict).  `acc` is
the current field (reversed), `rec` the current record's fields (reversed),
`recs` the finished records (reversed). -/
def scan : CsvMode → List Char → List Char → List String → List (List String) →
    Option (List (List String))
  | .rstart, [], _, _, recs => some recs.reverse
  | .rstart, c :: cs, _, _, recs =>
    if c = ',' then scan .field cs [] [""] recs
    else if c = '\n' then scan .rstart cs [] [] ([""] :: recs)
    else if c = '"' then scan .quoted cs [] [] recs
    else scan .field cs [c] [] recs
  | .field, [], acc, krec, recs =>
    some (((String.mk acc.reverse :: krec).reverse :: recs).reverse)
  | .field, c :: cs, acc, krec, recs =>
    if c = ',' then scan .field cs [] (String.mk acc.reverse :: krec) recs
    else if c = '\n' then
      scan .rstart cs [] [] ((String.mk acc.reverse :: krec).reverse :: recs)
    else if c = '"' ∧ acc = [] then scan .quoted cs [] krec recs
    else scan .field cs (c :: acc) krec recs
  | .quoted, [], _, _, _ => none
  | .quoted, c :: cs, acc, krec, recs =>
    if c = '"' then scan .closed cs acc krec recs
    else scan .quoted cs (c :: acc) krec recs
  | .closed, [], acc, krec, recs =>
    some (((String.mk acc.reverse :: krec).reverse :: recs).reverse)
  | .closed, c :: cs, acc, krec, recs =>
    if c = '"' then scan .quoted cs ('"' :: acc) krec recs
    else if c = ',' then scan .field cs [] (String.mk acc.reverse :: krec) recs
    else if c = '\n' then
      scan .rstart cs [] [] ((String.mk acc.reverse :: krec).reverse :: recs)
    else none

/-- Decode a CSV document into its records. -/
def parseCsvRecords (s : String) : Option (List (List String)) :=
  scan .rstart s.toList [] [] []

/-- The UI output of one Execute-Query interaction: the emitted messages,
the rendered table (if any), and the CSV download payload (if any). -/
structure UI where
  msgs : List Msg
  table : Option DataFrame
  download : Option String
deriving Repr

/-- The `if st.button("Execute Query"):` block of the source: reject a
missing connection, then a blank query, otherwise run the (cached) query;
render the table plus optional CSV download when the frame is non-empty,
else show the informational message. -/
def handleExecuteQuery (st : AppState) (query : String) (enableDownload : Bool)
    (now : Nat) : AppState × UI :=
  if st.conn.isNone then
    (st, ⟨[Msg.error "Database connection failed. Please check your credentials."],
          none, none⟩)
  else if pyStrip query = "" then
    (st, ⟨[Msg.warning "Please enter a SQL query."], none, none⟩)
  else
    let p := cachedRunQuery st query now
    let df := p.2.2
    if !df.isEmpty then
      (p.1, ⟨p.2.1 ++ [Msg.success ("Query returned " ++ toString df.rows.length ++ " rows.")],
             some df,
             if enableDownload then some (to_csv df) else none⟩)
    else
      (p.1, ⟨p.2.1 ++ [Msg.info "Query returned no results or encountered an error."],
             none, none⟩)

/-- A stub driver that always answers with a fixed two-column rowset. -/
def connRows : Conn :=
  ⟨fun _ => ExecResult.rows (some ["TABLE_NAME", "KIND"]) [["t1", "BASE"], ["t2", "VIEW"]]⟩

/-- A stub driver that always answers with an empty rowset. -/
def connEmpty : Conn :=
  ⟨fun _ => ExecResult.rows (some ["TABLE_NAME"]) []⟩

/-- A stub driver that reports a `pyodbc.Error` on one query and a generic
exception on every other. -/
def connFailing : Conn :=
  ⟨fun q => if q = "SELECT 1" then ExecResult.pyodbcError "syntax" else ExecResult.otherExc "boom"⟩

/-- App state with no connection (the session after a failed connect). -/
def stNoConn : AppState := ⟨none, [], []⟩

/-- Fresh app state whose driver answers every query with two rows. -/
def stRows : AppState := ⟨some connRows, [], []⟩

/-- Fresh app state whose driver answers every query with zero rows. -/
def stEmptyRes : AppState := ⟨some connEmpty, [], []⟩

/-- A concrete displayed frame exercising quoting: commas, quotes, a line
break and an empty cell. -/
def sampleDF : DataFrame :=
  ⟨["name", "notes,etc"], [["alice", "said \"hi\""], ["", "line1\nline2"]]⟩

/-- A query made only of whitespace is stripped to the empty string. -/
theorem pyStrip_eq_empty (s : String) (h : s.toList.all pyIsSpace = true) :
    pyStrip s = "" := by
  have h1 : s.toList.dropWhile pyIsSpace = [] :=
    List.dropWhile_eq_nil_iff.mpr (fun x hx => by simpa using List.all_eq_true.mp h x hx)
  show String.mk (((s.toList.dropWhile pyIsSpace).reverse.dropWhile pyIsSpace).reverse) = ""
  rw [h1]
  rfl

/-- The two failure messages of `run_query` never coincide (they start with
different characters). -/
theorem db_msg_ne_exec_msg (m1 m2 : String) :
    ("Database error: " ++ m1) ≠ ("Error executing query: " ++ m2) := by
  intro h
  have hd : ("Database error: " ++ m1).data = 'D' :: ("atabase error: " ++ m1).data := rfl
  have he : ("Error executing query: " ++ m2).data =
      'E' :: ("rror executing query: " ++ m2).data := rfl
  rw [h, he] at hd
  injection hd with h1 _
  exact absurd h1 (by decide)

/-- Claim C9: `run_query` is total at its public interface: for every query
string and connection state (missing connection and raising driver
included) it returns a message list and a `DataFrame`, and no exception
escapes to the caller. -/
theorem run_query_total (conn : Option Conn) (query : String) :
    ∃ r, run_query conn query = Except.ok r := by
  unfold run_query
  rcases runQueryTry conn query with e | r
  · rcases e with m | m
    · exact ⟨_, rfl⟩
    · exact ⟨_, rfl⟩
  · exact ⟨r, rfl⟩

/-- Claim C3: a failed connection attempt is caught, shows a visible error
and yields no connection; and every later query submission with a missing
connection short-circuits with an error message, leaving the state (and in
particular the driver execution log) untouched. -/
theorem connection_failure_short_circuits (e : String) :
    init_connection (Except.error e) =
      ([Msg.error ("Error connecting to database: " ++ e)], none) ∧
    ∀ (st : AppState) (q : String) (ed : Bool) (now : Nat), st.conn = none →
      handleExecuteQuery st q ed now =
        (st, ⟨[Msg.error "Database connection failed. Please check your credentials."],
              none, none⟩) := by
  refine ⟨rfl, ?_⟩
  intro st q ed now h
  simp [handleExecuteQuery, h]

/-- Witness for C3 at a concrete failed-connection state. -/
theorem connection_failure_short_circuits_w :
    handleExecuteQuery stNoConn "SELECT 1" true 0 =
      (stNoConn,
       ⟨[Msg.error "Database connection failed. Please check your credentials."],
        none, none⟩) :=
  (connection_failure_short_circuits "no network").2 stNoConn "SELECT 1" true 0 rfl

/-- Claim C5: an empty or whitespace-only query string is rejected with a
warning message and the state is unchanged, so the string never reaches the
driver's execution call. -/
theorem blank_query_rejected (st : AppState) (c : Conn) (q : String) (ed : Bool)
    (now : Nat) (hc : st.conn = some c) (hq : q.toList.all pyIsSpace = true) :
    handleExecuteQuery st q ed now =
      (st, ⟨[Msg.warning "Please enter a SQL query."], none, none⟩) := by
  simp [handleExecuteQuery, hc, pyStrip_eq_empty q hq]

/-- Witness for C5 on a whitespace-only query. -/
theorem blank_query_rejected_w :
    handleExecuteQuery stRows " \t\x0b\n " true 0 =
      (stRows, ⟨[Msg.warning "Please enter a SQL query."], none, none⟩) :=
  blank_query_rejected stRows connRows " \t\x0b\n " true 0 rfl (by decide)

/-- Once the memo cell holds a value, further `get_connection` calls return
it unchanged and never rerun `init_connection`. -/
theorem get_connection_calls_cached (rest : List (Except String Conn))
    (r : Option Conn) (n : Nat) :
    get_connection_calls ⟨some r, n⟩ rest =
      (List.replicate rest.length r, ⟨some r, n⟩) := by
  induction rest with
  | nil => rfl
  | cons a as ih => simp [get_connection_calls, get_connection, ih, List.replicate_succ]

/-- Claim C10: connection establishment happens at most once per process:
the first `get_connection` result (even `none` on failure) is cached, every
later call returns that same first result, and `init_connection` runs
exactly once no matter what later connection attempts would produce. -/
theorem connection_attempted_once (a : Except String Conn)
    (rest : List (Except String Conn)) :
    (get_connection a ⟨none, 0⟩).2.initCalls = 1 ∧
    (get_connection_calls (get_connection a ⟨none, 0⟩).2 rest).2.initCalls = 1 ∧
    ∀ r ∈ (get_connection_calls (get_connection a ⟨none, 0⟩).2 rest).1,
      r = (get_connection a ⟨none, 0⟩).1 := by
  have h2 : (get_connection a ⟨none, 0⟩).2 = ⟨some (init_connection a).2, 1⟩ := rfl
  refine ⟨rfl, ?_, ?_⟩
  · rw [h2, get_connection_calls_cached]
  · rw [h2, get_connection_calls_cached]
    intro r hr
    exact List.eq_of_mem_replicate hr

/-- Claim C1: a successful execution yielding rows `rws` and non-empty
column list `cols` (rows aligned to the columns, as the driver guarantees)
is displayed as a table whose rows are exactly `rws` and whose columns are
exactly `cols`, in the driver's original order. -/
theorem successful_query_table (st : AppState) (c : Conn) (q : String) (ed : Bool)
    (now : Nat) (cols : List String) (rws : List (List String))
    (hconn : st.conn = some c) (hcache : lookupCache st.cache q now = none)
    (hq : pyStrip q ≠ "") (hexec : c.exec q = ExecResult.rows (some cols) rws)
    (hcols : cols ≠ []) (hrows : rws ≠ [])
    (halign : ∀ r ∈ rws, r.length = cols.length) :
    (handleExecuteQuery st q ed now).2.table = some ⟨cols, rws⟩ := by
  have hre : rws.isEmpty = false := List.isEmpty_eq_false.mpr hrows
  have hce : cols.isEmpty = false := List.isEmpty_eq_false.mpr hcols
  have hall : rws.all (fun r => r.length == cols.length) = true :=
    List.all_eq_true.mpr (fun r hr => beq_iff_eq.mpr (halign r hr))
  simp [handleExecuteQuery, hconn, hq, cachedRunQuery, hcache, runQueryVal, run_query,
        runQueryTry, hexec, mkDataFrame, hall, hre, hce, DataFrame.isEmpty, Except.map]

/-- Witness for C1 on a concrete two-column, two-row driver answer. -/
theorem successful_query_table_w :
    (handleExecuteQuery stRows "SELECT 1" true 0).2.table =
      some ⟨["TABLE_NAME", "KIND"], [["t1", "BASE"], ["t2", "VIEW"]]⟩ :=
  successful_query_table stRows connRows "SELECT 1" true 0 ["TABLE_NAME", "KIND"]
    [["t1", "BASE"], ["t2", "VIEW"]] rfl rfl (by decide) rfl (by decide) (by decide)
    (by decide)

/-- Claim C7: an execution returning zero rows produces exactly the
informational message, no rendered table and no download control. -/
theorem zero_rows_info (st : AppState) (c : Conn) (q : String) (ed : Bool)
    (now : Nat) (d : Option (List String)) (hconn : st.conn = some c)
    (hcache : lookupCache st.cache q now = none) (hq : pyStrip q ≠ "")
    (hexec : c.exec q = ExecResult.rows d []) :
    (handleExecuteQuery st q ed now).2 =
      ⟨[Msg.info "Query returned no results or encountered an error."], none, none⟩ := by
  simp [handleExecuteQuery, hconn, hq, cachedRunQuery, hcache, runQueryVal, run_query,
        runQueryTry, hexec, DataFrame.isEmpty, DataFrame.emptyDF]

/-- Witness for C7 on a driver answering with zero rows. -/
theorem zero_rows_info_w :
    (handleExecuteQuery stEmptyRes "SELECT 1" true 0).2 =
      ⟨[Msg.info "Query returned no results or encountered an error."], none, none⟩ :=
  zero_rows_info stEmptyRes connEmpty "SELECT 1" true 0 (some ["TABLE_NAME"]) rfl rfl
    (by decide) rfl

/-- Claim C8: a submitted non-blank query string that actually executes is
handed to the driver's execution call verbatim: the execution log gains
exactly the submitted string, untrimmed and unescaped. -/
theorem query_passed_verbatim (st : AppState) (c : Conn) (q : String) (ed : Bool)
    (now : Nat) (hconn : st.conn = some c)
    (hcache : lookupCache st.cache q now = none) (hq : pyStrip q ≠ "") :
    (handleExecuteQuery st q ed now).1.execLog = st.execLog ++ [q] := by
  simp [handleExecuteQuery, hconn, hq, cachedRunQuery, hcache]
  split <;> simp [hconn]

/-- Witness for C8 on a query with leading and trailing whitespace. -/
theorem query_passed_verbatim_w :
    (handleExecuteQuery stRows "  SELECT 1  " true 0).1.execLog =
      stRows.execLog ++ ["  SELECT 1  "] :=
  query_passed_verbatim stRows connRows "  SELECT 1  " true 0 rfl rfl (by decide)

/-- Claim C2: re-submitting the identical query string within the caching
window (under 600 seconds after the submission that computed the result)
returns the previously computed result and does not touch the driver: the
execution log — the driver call count — does not grow. -/
theorem cached_resubmission (st : AppState) (q : String) (t0 t1 : Nat)
    (hmiss : lookupCache st.cache q t0 = none) (hwin : t1 - t0 < cacheTTL) :
    (cachedRunQuery (cachedRunQuery st q t0).1 q t1).2 = (cachedRunQuery st q t0).2 ∧
    (cachedRunQuery (cachedRunQuery st q t0).1 q t1).1.execLog =
      (cachedRunQuery st q t0).1.execLog := by
  have h1 : cachedRunQuery st q t0 =
      ({ conn := st.conn, cache := ⟨q, t0, runQueryVal st.conn q⟩ :: st.cache,
         execLog := match st.conn with
           | none => st.execLog
           | some _ => st.execLog ++ [q] },
       runQueryVal st.conn q) := by
    unfold cachedRunQuery
    rw [hmiss]
  have h2 : lookupCache (⟨q, t0, runQueryVal st.conn q⟩ :: st.cache) q t1 =
      some (runQueryVal st.conn q) := by
    simp [lookupCache, List.find?, hwin]
  rw [h1]
  constructor <;> simp [cachedRunQuery, h2]

/-- Witness for C2: the same query twice, 599 seconds apart. -/
theorem cached_resubmission_w :
    (cachedRunQuery (cachedRunQuery stRows "SELECT 1" 0).1 "SELECT 1" 599).2 =
      (cachedRunQuery stRows "SELECT 1" 0).2 ∧
    (cachedRunQuery (cachedRunQuery stRows "SELECT 1" 0).1 "SELECT 1" 599).1.execLog =
      (cachedRunQuery stRows "SELECT 1" 0).1.execLog :=
  cached_resubmission stRows "SELECT 1" 0 599 rfl (by decide)

/-- Claim C4: every query-execution failure is caught at the call site,
reported as a visible error message and converted to the empty frame, so
the call returns normally; the wording distinguishes driver-reported
(`pyodbc.Error`) failures from any other exception. -/
theorem exec_failure_reported (c : Conn) (q1 q2 m1 m2 : String)
    (h1 : c.exec q1 = ExecResult.pyodbcError m1)
    (h2 : c.exec q2 = ExecResult.otherExc m2) :
    run_query (some c) q1 =
      Except.ok ([Msg.error ("Database error: " ++ m1)], DataFrame.emptyDF) ∧
    run_query (some c) q2 =
      Except.ok ([Msg.error ("Error executing query: " ++ m2)], DataFrame.emptyDF) ∧
    ("Database error: " ++ m1) ≠ ("Error executing query: " ++ m2) :=
  ⟨by simp [run_query, runQueryTry, h1], by simp [run_query, runQueryTry, h2],
   db_msg_ne_exec_msg m1 m2⟩

/-- Witness for C4 on a driver failing both ways. -/
theorem exec_failure_reported_w :
    run_query (some connFailing) "SELECT 1" =
      Except.ok ([Msg.error ("Database error: " ++ "syntax")], DataFrame.emptyDF) ∧
    run_query (some connFailing) "SELECT 2" =
      Except.ok ([Msg.error ("Error executing query: " ++ "boom")], DataFrame.emptyDF) ∧
    ("Database error: " ++ "syntax") ≠ ("Error executing query: " ++ "boom") :=
  exec_failure_reported connFailing "SELECT 1" "SELECT 2" "syntax" "boom"
    (by decide) (by decide)

/-- Rebuilding a string from its characters is the identity. -/
@[simp] theorem strMkToList (s : String) : String.mk s.toList = s := rfl

/-- The empty character list makes the empty string. -/
@[simp] theorem strMkNil : String.mk [] = "" := rfl

/-- Characters of a field that `to_csv` leaves unquoted are none of the
delimiter, record separator or quote character. -/
theorem needsQuote_false_mem (s : String) (h : needsQuote s = false) :
    ∀ c ∈ s.toList, c ≠ ',' ∧ c ≠ '\n' ∧ c ≠ '"' := by
  intro c hc
  have hp : ¬ ((c == ',' || c == '"' || c == '\n' || c == '\r') = true) := by
    intro hp
    have hany : s.toList.any (fun x => x == ',' || x == '"' || x == '\n' || x == '\r') = true :=
      List.any_eq_true.mpr ⟨c, hc, hp⟩
    rw [needsQuote] at h
    rw [h] at hany
    exact Bool.false_ne_true hany
  simp only [Bool.or_eq_true, beq_iff_eq, not_or] at hp
  exact ⟨hp.1.1.1, hp.1.2, hp.1.1.2⟩

/-- The decoder consumes an unquoted field character by character. -/
theorem scan_field_raw : ∀ (fc : List Char) (cs acc : List Char) (krec : List String)
    (recs : List (List String)), (∀ c ∈ fc, c ≠ ',' ∧ c ≠ '\n' ∧ c ≠ '"') →
    scan .field (fc ++ cs) acc krec recs = scan .field cs (fc.reverse ++ acc) krec recs := by
  intro fc
  induction fc with
  | nil => intro cs acc krec recs _; simp
  | cons c fc ih =>
    intro cs acc krec recs h
    obtain ⟨h1, h2, h3⟩ := h c (by simp)
    have hh : ∀ x ∈ fc, x ≠ ',' ∧ x ≠ '\n' ∧ x ≠ '"' := fun x hx => h x (by simp [hx])
    rw [List.cons_append]
    simp only [scan]
    rw [if_neg h1, if_neg h2, if_neg (by simp [h3] : ¬(c = '"' ∧ acc = []))]
    rw [ih cs (c :: acc) krec recs hh]
    simp [List.append_assoc]

/-- The decoder consumes a quote-escaped field body up to its closing
quote. -/
theorem scan_quoted_escape : ∀ (fc : List Char) (cs acc : List Char) (krec : List String)
    (recs : List (List String)),
    scan .quoted (escapeQuotes fc ++ '"' :: cs) acc krec recs =
      scan .closed cs (fc.reverse ++ acc) krec recs := by
  intro fc
  induction fc with
  | nil => intro cs acc krec recs; simp [escapeQuotes, scan]
  | cons c fc ih =>
    intro cs acc krec recs
    by_cases hc : c = '"'
    · subst hc
      simp only [escapeQuotes, if_pos rfl, List.cons_append]
      simp [scan, ih, List.append_assoc]
    · simp only [escapeQuotes, if_neg hc, List.cons_append]
      simp [scan, hc, ih, List.append_assoc]

/-- Consuming one encoded field followed by a comma pushes exactly that
field onto the current record. -/
theorem scan_fieldChars_comma (f : String) (cs : List Char) (krec : List String)
    (recs : List (List String)) :
    scan .field (fieldChars f ++ ',' :: cs) [] krec recs =
      scan .field cs [] (f :: krec) recs := by
  cases hq : needsQuote f
  · have hmem := needsQuote_false_mem f hq
    simp only [fieldChars, hq, Bool.false_eq_true, if_false]
    rw [scan_field_raw f.toList (',' :: cs) [] krec recs hmem]
    simp [scan]
  · simp [fieldChars, hq, scan, scan_quoted_escape, List.append_assoc]

/-- Consuming one encoded field followed by a newline closes the current
record with that field as its last entry. -/
theorem scan_fieldChars_nl (f : String) (cs : List Char) (krec : List String)
    (recs : List (List String)) :
    scan .field (fieldChars f ++ '\n' :: cs) [] krec recs =
      scan .rstart cs [] [] ((f :: krec).reverse :: recs) := by
  cases hq : needsQuote f
  · have hmem := needsQuote_false_mem f hq
    simp only [fieldChars, hq, Bool.false_eq_true, if_false]
    rw [scan_field_raw f.toList ('\n' :: cs) [] krec recs hmem]
    simp [scan]
  · simp [fieldChars, hq, scan, scan_quoted_escape, List.append_assoc]

/-- Consuming one encoded non-empty record up to its terminating newline
closes exactly that record. -/
theorem scan_recordChars : ∀ (fs : List String), fs ≠ [] →
    ∀ (cs : List Char) (krec : List String) (recs : List (List String)),
    scan .field (recordChars fs ++ '\n' :: cs) [] krec recs =
      scan .rstart cs [] [] ((krec.reverse ++ fs) :: recs) := by
  intro fs
  induction fs with
  | nil => intro h; exact absurd rfl h
  | cons f fs ih =>
    intro _ cs krec recs
    cases fs with
    | nil =>
      simp only [recordChars]
      rw [scan_fieldChars_nl]
      simp
    | cons f2 fs2 =>
      simp only [recordChars]
      rw [List.append_assoc, List.cons_append]
      rw [scan_fieldChars_comma]
      rw [ih (by simp) cs (f :: krec) recs]
      simp

/-- At a record boundary the decoder treats the next character exactly as
the start of a field of a fresh record. -/
theorem scan_rstart_eq_field (c : Char) (cs : List Char) (recs : List (List String)) :
    scan .rstart (c :: cs) [] [] recs = scan .field (c :: cs) [] [] recs := by
  by_cases h1 : c = ','
  · subst h1; simp [scan]
  · by_cases h2 : c = '\n'
    · subst h2; simp [scan]
    · by_cases h3 : c = '"'
      · subst h3; simp [scan]
      · simp [scan, h1, h2, h3]

/-- Decoding an encoded document of non-empty records recovers exactly the
records, in order. -/
theorem scan_csvChars : ∀ (rs : List (List String)), (∀ r ∈ rs, r ≠ []) →
    ∀ (recs : List (List String)),
    scan .rstart (csvChars rs) [] [] recs = some (recs.reverse ++ rs) := by
  intro rs
  induction rs with
  | nil => intro _ recs; simp [csvChars, scan]
  | cons r rs ih =>
    intro h recs
    have hr : r ≠ [] := h r (by simp)
    have hrs : ∀ x ∈ rs, x ≠ [] := fun x hx => h x (by simp [hx])
    have e1 : csvChars (r :: rs) = recordChars r ++ '\n' :: csvChars rs := rfl
    rcases hsplit : recordChars r ++ '\n' :: csvChars rs with _ | ⟨c, cs⟩
    · exact absurd hsplit (by simp)
    · rw [e1, hsplit, scan_rstart_eq_field, ← hsplit,
          scan_recordChars r hr (csvChars rs) [] recs, ih hrs]
      simp

/-- Claim C6: decoding the exported CSV of a non-empty displayed frame
(rows aligned to the columns, as every displayed frame is) reproduces
exactly the column headers and the row values of the displayed table — for
arbitrary string data, since quoting round-trips commas, quotes and line
breaks, and in particular byte-for-byte for ASCII data. -/
theorem csv_export_roundtrip (df : DataFrame) (hne : df.isEmpty = false)
    (halign : ∀ r ∈ df.rows, r.length = df.cols.length) :
    parseCsvRecords (to_csv df) = some (df.cols :: df.rows) := by
  have hcols : df.cols ≠ [] := by
    intro hc
    simp [DataFrame.isEmpty, hc] at hne
  have hrows : ∀ r ∈ df.cols :: df.rows, r ≠ [] := by
    intro r hr
    rcases List.mem_cons.mp hr with h | h
    · exact h ▸ hcols
    · intro hnil
      have hlen := halign r h
      rw [hnil] at hlen
      exact hcols (List.length_eq_zero.mp hlen.symm)
  show scan .rstart (String.mk (csvChars (df.cols :: df.rows))).toList [] [] [] = _
  rw [show (String.mk (csvChars (df.cols :: df.rows))).toList =
      csvChars (df.cols :: df.rows) from rfl]
  rw [scan_csvChars (df.cols :: df.rows) hrows []]
  simp

/-- Witness for C6 on a frame with commas, quotes, an empty cell and an
embedded line break in its data. -/
theorem csv_export_roundtrip_w :
    parseCsvRecords (to_csv sampleDF) = some (sampleDF.cols :: sampleDF.rows) :=
  csv_export_roundtrip sampleDF (by decide) (by decide)
